import Mathlib

/-!
Verification development for the VibeSync repository.

Shallow embedding of the session API handlers (`src/api/session.js`, the
in-memory store variant, and `src/unnamed/part_002`, the Vercel-KV store
variant) and of the fan-out sync endpoint (`src/api/sync.js`).

Modelling conventions:
* JavaScript timestamps (`Date.now()`) are passed in as an explicit `now : Int`.
* Body fields that may be absent (`undefined`) are `Option`-typed; JavaScript
  string truthiness (`undefined`, `null` and `""` are falsy) is `strTruthy`.
* The session store is abstracted by the `Option Session` result of the single
  `sessions.get(code.toUpperCase())` / `getSession(code)` lookup a handler
  performs; handlers return the post-call state of the session record.
* Queue items always carry `votes`/`votedBy` because `addTrack` initialises
  them; the defensive JS guards (`track.votes || 0`,
  `if (!track.votedBy) track.votedBy = []`) are the identity under this
  representation and are noted where they occur.
* `Array.prototype.sort` is stable (required by ECMAScript 2019) and the
  output of a stable sort is uniquely determined by comparator and input
  order; the model uses a structurally recursive stable insertion sort
  `stableSortVotes` for the comparator `(a, b) => (b.votes||0) - (a.votes||0)`.
* External HTTP calls made by `src/api/sync.js` are abstracted by an oracle
  mapping each bearer token to the outcome of its fetch.
-/

/-- JavaScript truthiness of a possibly-absent string: `undefined`/`""` are
falsy, every non-empty string is truthy. -/
def strTruthy : Option String → Bool
  | none => false
  | some s => !s.isEmpty

/-- JavaScript `x || d` for a possibly-absent string `x`. -/
def orDefault (x : Option String) (d : String) : String :=
  match x with
  | none => d
  | some s => if s.isEmpty then d else s

/-- JavaScript `Array.prototype.slice(-n)`: the last `n` elements (the whole
list when it is shorter than `n`). -/
def sliceLast (n : Nat) (l : List α) : List α :=
  l.drop (l.length - n)

/-- Mutating the first element satisfying `p` (the JS pattern
`const x = arr.find(p); ...mutate x...`, which changes exactly the first
match in place). -/
def modifyFirst (p : α → Bool) (f : α → α) : List α → List α
  | [] => []
  | x :: xs => if p x then f x :: xs else x :: modifyFirst p f xs

/-- Removing the first element satisfying `p` (the JS pattern
`arr.splice(arr.findIndex(p), 1)` when a match exists). -/
def removeFirst (p : α → Bool) : List α → List α
  | [] => []
  | x :: xs => if p x then xs else x :: removeFirst p xs


-- ===================== Data model (section 3 of the spec) =====================

/-- Track payload as shipped by the client (`handleAddToQueue` in the
frontend builds exactly these fields). -/
structure Track where
  id : String
  name : String
  artists : String
  album : String
  albumArt : String
  duration : Int
  uri : String
deriving DecidableEq, Repr

/-- A queue entry: the track plus the metadata `addTrack` attaches
(`{...track, addedBy, addedById, addedAt, votes, votedBy}`). -/
structure QueueItem extends Track where
  addedBy : String
  addedById : Option String
  addedAt : Int
  votes : Int
  votedBy : List String
deriving DecidableEq, Repr

/-- A history entry: `{...currentTrack, playedAt: Date.now()}`. -/
structure PlayedTrack extends Track where
  playedAt : Int
deriving DecidableEq, Repr

/-- A guest record (`join` builds `{id, name, token, joinedAt}`). -/
structure Guest where
  id : String
  name : String
  token : Option String
  joinedAt : Int
deriving DecidableEq, Repr

/-- A reaction record (`react` builds `{emoji, userName, userId, timestamp}`). -/
structure Reaction where
  emoji : String
  userName : String
  userId : Option String
  timestamp : Int
deriving DecidableEq, Repr

/-- A pending play request
(`{track, requestedBy, requestedById, requestedAt}`). -/
structure PlayRequest where
  track : Track
  requestedBy : String
  requestedById : Option String
  requestedAt : Int
deriving DecidableEq, Repr

/-- Session settings, defaulted at `create`. -/
structure Settings where
  allowVoting : Bool
  allowGuestRemove : Bool
  autoPlay : Bool
  syncPlayback : Bool
deriving DecidableEq, Repr

/-- Partial settings patch sent to `updateSettings`
(merged by `{...session.settings, ...settings}`). -/
structure SettingsPatch where
  allowVoting : Option Bool := none
  allowGuestRemove : Option Bool := none
  autoPlay : Option Bool := none
  syncPlayback : Option Bool := none
deriving DecidableEq, Repr

/-- Merge of a settings patch over existing settings
(JS object spread: present fields overwrite). -/
def Settings.merge (s : Settings) (p : SettingsPatch) : Settings :=
  { allowVoting := p.allowVoting.getD s.allowVoting
    allowGuestRemove := p.allowGuestRemove.getD s.allowGuestRemove
    autoPlay := p.autoPlay.getD s.autoPlay
    syncPlayback := p.syncPlayback.getD s.syncPlayback }

/-- The session record created by `create` and mutated by every other
handler. `currentTrack` is kept as the track payload; when `playNext`
assigns a full queue item to it, the model projects to the payload (the
queue metadata carried along by the JS object is never read from
`currentTrack` anywhere in the repository). -/
structure Session where
  code : String
  hostId : Option String
  hostName : String
  hostToken : String
  queue : List QueueItem
  guests : List Guest
  history : List PlayedTrack
  reactions : List Reaction
  playRequests : List PlayRequest
  currentTrack : Option Track
  isPlaying : Bool
  createdAt : Int
  lastActivity : Int
  settings : Settings
deriving DecidableEq, Repr

/-- Trimmed guest projection returned by `join`/`get`
(`guests.map(g => ({id: g.id, name: g.name}))`). -/
structure GuestView where
  id : String
  name : String
deriving DecidableEq, Repr

/-- The session projection returned by `join` and `get` (the latter adds
`reactions`, `playRequests` and `lastActivity`). -/
structure SessionView where
  code : String
  hostName : String
  queue : List QueueItem
  guests : List GuestView
  history : List PlayedTrack
  currentTrack : Option Track
  isPlaying : Bool
  reactions : Option (List Reaction) := none
  playRequests : Option (List PlayRequest) := none
  settings : Settings
  lastActivity : Option Int := none
deriving DecidableEq, Repr

/-- Result of one session-API handler call: HTTP status, the JSON body
fields the handlers emit, and the post-call state of the session record
(`none` when no session exists after the call). -/
structure Out where
  status : Nat
  success : Option Bool := none
  error : Option String := none
  session : Option Session := none
  view : Option SessionView := none
  queue : Option (List QueueItem) := none
  track : Option QueueItem := none
  tokens : List String := []
  history : Option (List PlayedTrack) := none
  requests : Option (List PlayRequest) := none
  reactionsOut : Option (List Reaction) := none
  currentTrack : Option Track := none
  settingsOut : Option Settings := none
  guestCount : Option Nat := none
  participantCount : Option Nat := none
  guestsWithoutTokens : Option (List String) := none
  message : Option String := none
deriving DecidableEq, Repr

/-- The vote-sort comparator `(a, b) => (b.votes || 0) - (a.votes || 0)`:
`a` may precede `b` exactly when `b.votes ≤ a.votes` (descending votes;
`|| 0` is the identity on the always-present integer `votes`). -/
def voteRel (a b : QueueItem) : Prop :=
  b.votes ≤ a.votes

instance : DecidableRel voteRel := fun a b => Int.decLe b.votes a.votes

instance : IsTotal QueueItem voteRel :=
  ⟨fun a b => le_total b.votes a.votes⟩

instance : IsTrans QueueItem voteRel :=
  ⟨fun _ _ _ hab hbc => le_trans hbc hab⟩

/-- The queue re-sort performed after every vote:
`session.queue.sort((a, b) => (b.votes || 0) - (a.votes || 0))`.
`Array.prototype.sort` is stable (ECMAScript 2019) and a stable sort's
output is determined uniquely by the comparator and the input order, so a
stable insertion sort is a faithful model. -/
def stableSortVotes : List QueueItem → List QueueItem :=
  List.insertionSort voteRel

/-- The vote toggle on the found track: retract when the voter is already in
`votedBy` (`votes = Math.max(0, votes - 1)`, filter the voter out), otherwise
add (`votes = (votes || 0) + 1`, push the voter). -/
def voteToggle (voter : String) (t : QueueItem) : QueueItem :=
  if t.votedBy.contains voter then
    { t with votes := max 0 (t.votes - 1)
             votedBy := t.votedBy.filter (fun v => v != voter) }
  else
    { t with votes := t.votes + 1
             votedBy := t.votedBy ++ [voter] }

namespace SessionApi

/-! Handlers whose bodies are line-identical in `src/api/session.js` and
`src/unnamed/part_002` (the KV variant additionally persists the mutated
record with `saveSession`, which the `session` field of `Out` captures). -/

/-- `case 'join'`: upsert the guest by id. The JS merge
`{...existing, ...guestData}` overwrites every guest field because
`guestData` carries all of them (a property set to `undefined` still
overwrites on spread), so the merged record equals `guestData`. -/
def join (lookup : Option Session)
    (code guestName guestId guestToken : Option String) (now : Int) : Out :=
  if !strTruthy code then
    { status := 400, error := some "Session code required", session := lookup }
  else
    match lookup with
    | none => { status := 404, error := some "Session not found" }
    | some s =>
      let guestIdent := orDefault guestId ("guest_" ++ toString now)
      let guestData : Guest :=
        { id := guestIdent
          name := orDefault guestName ("Guest " ++ toString (s.guests.length + 1))
          token := guestToken
          joinedAt := now }
      let guests :=
        if (s.guests.find? (fun g => g.id == guestIdent)).isSome then
          modifyFirst (fun g => g.id == guestIdent) (fun _ => guestData) s.guests
        else
          s.guests ++ [guestData]
      let s' := { s with guests := guests, lastActivity := now }
      { status := 200, success := some true
        view := some
          { code := s.code, hostName := s.hostName, queue := s.queue
            guests := guests.map (fun g => ⟨g.id, g.name⟩)
            history := sliceLast 10 s.history
            currentTrack := s.currentTrack, isPlaying := s.isPlaying
            settings := s.settings }
        session := some s' }

/-- `case 'get'`: prune reactions older than 5 seconds (lazy cleanup) and
return the full session projection. `lastActivity` is not touched. -/
def get (lookup : Option Session) (code : Option String) (now : Int) : Out :=
  if !strTruthy code then
    { status := 400, error := some "Session code required", session := lookup }
  else
    match lookup with
    | none => { status := 404, error := some "Session not found" }
    | some s =>
      let reacts := s.reactions.filter (fun r => now - r.timestamp < 5000)
      let s' := { s with reactions := reacts }
      { status := 200, success := some true
        view := some
          { code := s.code, hostName := s.hostName, queue := s.queue
            guests := s.guests.map (fun g => ⟨g.id, g.name⟩)
            history := sliceLast 10 s.history
            currentTrack := s.currentTrack, isPlaying := s.isPlaying
            reactions := some reacts, playRequests := some s.playRequests
            settings := s.settings, lastActivity := some s.lastActivity }
        session := some s' }

/-- `case 'addTrack'`: reject a duplicate track id, otherwise push the item
with `votes: 1` and the adder (`addedById || addedBy || 'Guest'`) as the
sole voter. -/
def addTrack (lookup : Option Session) (code : Option String)
    (track : Option Track) (addedBy addedById : Option String) (now : Int) : Out :=
  match track with
  | none =>
    { status := 400, error := some "Session code and track required", session := lookup }
  | some tr =>
    if !strTruthy code then
      { status := 400, error := some "Session code and track required", session := lookup }
    else
      match lookup with
      | none => { status := 404, error := some "Session not found" }
      | some s =>
        if (s.queue.find? (fun t => t.id == tr.id)).isSome then
          { status := 400, error := some "Track already in queue", session := some s }
        else
          let item : QueueItem :=
            { toTrack := tr
              addedBy := orDefault addedBy "Guest"
              addedById := addedById
              addedAt := now
              votes := 1
              votedBy := [orDefault addedById (orDefault addedBy "Guest")] }
          let q := s.queue ++ [item]
          { status := 200, success := some true, queue := some q
            session := some { s with queue := q, lastActivity := now } }

/-- `case 'vote'`: toggle the vote of `voterId || 'anonymous'` on the first
queue entry with the given id, then re-sort the whole queue by descending
votes. The body field `voteType` is destructured but never used. -/
def vote (lookup : Option Session)
    (code trackId voterId voteType : Option String) (now : Int) : Out :=
  if !(strTruthy code && strTruthy trackId) then
    { status := 400, error := some "Session code and track ID required", session := lookup }
  else
    match lookup with
    | none => { status := 404, error := some "Session not found" }
    | some s =>
      if !s.settings.allowVoting then
        { status := 403, error := some "Voting disabled", session := some s }
      else
        let tid := trackId.getD ""
        match s.queue.find? (fun t => t.id == tid) with
        | none =>
          { status := 404, error := some "Track not found in queue", session := some s }
        | some _ =>
          let voter := orDefault voterId "anonymous"
          let q2 := stableSortVotes
            (modifyFirst (fun t => t.id == tid) (voteToggle voter) s.queue)
          { status := 200, success := some true, queue := some q2
            session := some { s with queue := q2, lastActivity := now } }

/-- `case 'removeTrack'`: locate the first queue entry with the given id;
allow removal only for the host, the track's adder
(`track.addedById !== requesterId` under JS strict equality, where
`undefined === undefined` holds) or when `allowGuestRemove` is set. -/
def removeTrack (lookup : Option Session)
    (code trackId requesterId : Option String) (isHost : Bool) (now : Int) : Out :=
  if !(strTruthy code && strTruthy trackId) then
    { status := 400, error := some "Session code and track ID required", session := lookup }
  else
    match lookup with
    | none => { status := 404, error := some "Session not found" }
    | some s =>
      let tid := trackId.getD ""
      match s.queue.find? (fun t => t.id == tid) with
      | none => { status := 404, error := some "Track not found", session := some s }
      | some track =>
        if !isHost && !(track.addedById == requesterId) && !s.settings.allowGuestRemove then
          { status := 403, error := some "Not authorized to remove this track"
            session := some s }
        else
          let q := removeFirst (fun t => t.id == tid) s.queue
          { status := 200, success := some true, queue := some q
            session := some { s with queue := q, lastActivity := now } }

/-- `case 'update-track'`: push the previous `currentTrack` (when present
and with a different id than the incoming track) into history, trim history
to its last 50 entries when it exceeds 50, then overwrite `currentTrack`. -/
def updateTrack (lookup : Option Session) (code : Option String)
    (track : Option Track) (now : Int) : Out :=
  if !strTruthy code then
    { status := 400, error := some "Session code required", session := lookup }
  else
    match lookup with
    | none => { status := 404, error := some "Session not found" }
    | some s =>
      let hist :=
        match s.currentTrack with
        | some c =>
          if (match track with | some t => c.id != t.id | none => true) then
            let h := s.history ++ [{ toTrack := c, playedAt := now }]
            if 50 < h.length then sliceLast 50 h else h
          else s.history
        | none => s.history
      let s' := { s with history := hist, currentTrack := track
                         isPlaying := track.isSome, lastActivity := now }
      { status := 200, success := some true, currentTrack := track
        history := some (sliceLast 10 hist), session := some s' }

/-- `case 'playNext'`: reject an empty queue; otherwise push the previous
`currentTrack` (if any) into history without trimming, shift the queue head
into `currentTrack`, and collect the host token plus every truthy guest
token (`tokens = [hostToken]; guests.forEach(g => if (g.token) push)`). -/
def playNext (lookup : Option Session) (code : Option String) (now : Int) : Out :=
  if !strTruthy code then
    { status := 400, error := some "Session code required", session := lookup }
  else
    match lookup with
    | none => { status := 404, error := some "Session not found" }
    | some s =>
      match s.queue with
      | [] => { status := 400, error := some "Queue is empty", session := some s }
      | nextTrack :: rest =>
        let hist :=
          match s.currentTrack with
          | some c => s.history ++ [{ toTrack := c, playedAt := now }]
          | none => s.history
        let tokens := s.guests.foldl
          (fun acc g => if strTruthy g.token then acc ++ [g.token.getD ""] else acc)
          [s.hostToken]
        let s' := { s with queue := rest, history := hist
                           currentTrack := some nextTrack.toTrack
                           isPlaying := true, lastActivity := now }
        { status := 200, success := some true, track := some nextTrack
          queue := some rest, tokens := tokens
          history := some (sliceLast 10 hist), session := some s' }

/-- `case 'react'`: append the reaction and keep only the last 20. -/
def react (lookup : Option Session)
    (code emoji userName userId : Option String) (now : Int) : Out :=
  if !(strTruthy code && strTruthy emoji) then
    { status := 400, error := some "Session code and emoji required", session := lookup }
  else
    match lookup with
    | none => { status := 404, error := some "Session not found" }
    | some s =>
      let r : Reaction :=
        { emoji := emoji.getD "", userName := orDefault userName "Anonymous"
          userId := userId, timestamp := now }
      let rs0 := s.reactions ++ [r]
      let rs := if 20 < rs0.length then sliceLast 20 rs0 else rs0
      { status := 200, success := some true, reactionsOut := some rs
        session := some { s with reactions := rs, lastActivity := now } }

/-- `case 'request-play'`: reject a duplicate pending request for the same
track id, otherwise append the request. -/
def requestPlay (lookup : Option Session) (code : Option String)
    (track : Option Track) (requestedBy requestedById : Option String)
    (now : Int) : Out :=
  match track with
  | none =>
    { status := 400, error := some "Session code and track required", session := lookup }
  | some tr =>
    if !strTruthy code then
      { status := 400, error := some "Session code and track required", session := lookup }
    else
      match lookup with
      | none => { status := 404, error := some "Session not found" }
      | some s =>
        if (s.playRequests.find? (fun r => r.track.id == tr.id)).isSome then
          { status := 400, error := some "Song already requested", session := some s }
        else
          let pr := s.playRequests ++
            [{ track := tr, requestedBy := orDefault requestedBy "Guest"
               requestedById := requestedById, requestedAt := now }]
          { status := 200, success := some true
            message := some "Request sent to host", requests := some pr
            session := some { s with playRequests := pr, lastActivity := now } }

/-- `case 'clear-request'`: drop every pending request whose track id equals
the given `trackId` (JS keeps `r.track.id !== trackId`). Unlike every other
mutating handler, `lastActivity` is not updated. -/
def clearRequest (lookup : Option Session) (code trackId : Option String) : Out :=
  if !strTruthy code then
    { status := 400, error := some "Session code required", session := lookup }
  else
    match lookup with
    | none => { status := 404, error := some "Session not found" }
    | some s =>
      let pr := s.playRequests.filter (fun r => !(some r.track.id == trackId))
      { status := 200, success := some true, requests := some pr
        session := some { s with playRequests := pr } }

/-- `case 'updateSettings'`: spread the partial patch over the stored
settings. -/
def updateSettings (lookup : Option Session) (code : Option String)
    (patch : Option SettingsPatch) (now : Int) : Out :=
  match patch with
  | none =>
    { status := 400, error := some "Session code and settings required", session := lookup }
  | some p =>
    if !strTruthy code then
      { status := 400, error := some "Session code and settings required", session := lookup }
    else
      match lookup with
      | none => { status := 404, error := some "Session not found" }
      | some s =>
        let st := s.settings.merge p
        { status := 200, success := some true, settingsOut := some st
          session := some { s with settings := st, lastActivity := now } }

end SessionApi

namespace MemApi

/-! Handlers specific to the in-memory variant `src/api/session.js`. -/

/-- `case 'get-all-tokens'` (in-memory variant): the host token is pushed
unconditionally, then every truthy guest token. -/
def getAllTokens (lookup : Option Session) (code : Option String) : Out :=
  if !strTruthy code then
    { status := 400, error := some "Session code required", session := lookup }
  else
    match lookup with
    | none => { status := 404, error := some "Session not found" }
    | some s =>
      let tokens := s.guests.foldl
        (fun acc g => if strTruthy g.token then acc ++ [g.token.getD ""] else acc)
        [s.hostToken]
      { status := 200, success := some true, tokens := tokens
        participantCount := some tokens.length, session := some s }

/-- `case 'leave'` (in-memory variant): a missing session is a 404 error;
otherwise drop every guest with the given id. -/
def leave (lookup : Option Session) (code guestId : Option String) (now : Int) : Out :=
  if !strTruthy code then
    { status := 400, error := some "Session code required", session := lookup }
  else
    match lookup with
    | none => { status := 404, error := some "Session not found" }
    | some s =>
      let guests := s.guests.filter (fun g => !(some g.id == guestId))
      { status := 200, success := some true, guestCount := some guests.length
        session := some { s with guests := guests, lastActivity := now } }

/-- `case 'end'` (in-memory variant): `sessions.delete` reports whether the
key existed; the handler answers 200 with `success` equal to that flag. -/
def endSession (code : Option String) (existed : Bool) : Out :=
  if !strTruthy code then
    { status := 400, error := some "Session code required" }
  else
    { status := 200, success := some existed
      message := some (if existed then "Session ended" else "Session not found") }

/-- The action names the in-memory variant's switch recognizes; any other
action falls to the `default` branch, a 400 "Invalid action" response.
Note the absence of `update-token`. -/
def actions : List String :=
  ["create", "join", "get", "get-all-tokens", "addTrack", "vote", "removeTrack",
   "update-track", "playNext", "react", "request-play", "clear-request",
   "updateSettings", "end", "leave"]

/-- Whether the in-memory dispatcher has a case for the action. -/
def recognizes (a : String) : Bool :=
  actions.contains a

end MemApi

namespace KvApi

/-! Handlers specific to the Vercel-KV variant `src/unnamed/part_002`. -/

/-- `case 'get-all-tokens'` (KV variant): the host token is pushed only when
truthy; the response additionally lists the names of guests without a
stored token. -/
def getAllTokens (lookup : Option Session) (code : Option String) : Out :=
  if !strTruthy code then
    { status := 400, error := some "Session code required", session := lookup }
  else
    match lookup with
    | none => { status := 404, error := some "Session not found" }
    | some s =>
      let start := if s.hostToken.isEmpty then [] else [s.hostToken]
      let tokens := s.guests.foldl
        (fun acc g => if strTruthy g.token then acc ++ [g.token.getD ""] else acc)
        start
      { status := 200, success := some true, tokens := tokens
        participantCount := some tokens.length
        guestsWithoutTokens :=
          some ((s.guests.filter (fun g => !strTruthy g.token)).map (fun g => g.name))
        session := some s }

/-- `case 'leave'` (KV variant): a missing session is answered with success
("Session already ended"); otherwise drop every guest with the given id. -/
def leave (lookup : Option Session) (code guestId : Option String) (now : Int) : Out :=
  if !strTruthy code then
    { status := 400, error := some "Session code required", session := lookup }
  else
    match lookup with
    | none =>
      { status := 200, success := some true, message := some "Session already ended" }
    | some s =>
      let guests := s.guests.filter (fun g => !(some g.id == guestId))
      { status := 200, success := some true, guestCount := some guests.length
        session := some { s with guests := guests, lastActivity := now } }

/-- `case 'end'` (KV variant): `deleteSession` returns `true` whenever the
KV client does not throw — deleting an absent key still reports success —
so `kvDelOk` is the health of the store, not the key's prior existence. -/
def endSession (code : Option String) (kvDelOk : Bool) : Out :=
  if !strTruthy code then
    { status := 400, error := some "Session code required" }
  else
    { status := 200, success := some kvDelOk
      message := some (if kvDelOk then "Session ended" else "Session not found") }

/-- `case 'update-token'` (KV variant only): refresh the host token or the
first matching guest's token (`userId || oderId`); a missing session or a
missing guest is silently accepted. -/
def updateToken (lookup : Option Session)
    (code oderId userId newToken : Option String) (isHost : Bool) (now : Int) : Out :=
  let participantId := if strTruthy userId then userId else oderId
  if !(strTruthy code && strTruthy newToken) then
    { status := 400, error := some "Session code and new token required", session := lookup }
  else
    match lookup with
    | none =>
      { status := 200, success := some true
        message := some "Session not found, token not updated" }
    | some s =>
      let s1 :=
        if isHost then { s with hostToken := newToken.getD "" }
        else
          { s with guests := modifyFirst (fun g => some g.id == participantId)
                     (fun g => { g with token := newToken }) s.guests }
      { status := 200, success := some true
        session := some { s1 with lastActivity := now } }

/-- The action names the KV variant's switch recognizes (it adds
`update-token` to the in-memory variant's list). -/
def actions : List String :=
  ["create", "join", "get", "get-all-tokens", "addTrack", "vote", "removeTrack",
   "update-track", "playNext", "react", "update-token", "request-play",
   "clear-request", "updateSettings", "end", "leave"]

/-- Whether the KV dispatcher has a case for the action. -/
def recognizes (a : String) : Bool :=
  actions.contains a

end KvApi

-- ===================== Fan-out sync (`src/api/sync.js`) =====================

namespace SyncApi

/-- Outcome of one `fetch` against the external player API: either a
response (with `ok`, `status`, and the error message the handler would
extract from a non-ok body) or a thrown network error. -/
inductive FetchOutcome where
  | resp (ok : Bool) (status : Nat) (errMsg : Option String)
  | netErr (msg : String)
deriving DecidableEq, Repr

/-- One per-token result object as aggregated by the handlers
(`{success, status, error?}`; `seek-sync`/`skip-sync` omit `status`). -/
structure TokenResult where
  success : Bool
  status : Option Nat := none
  error : Option String := none
deriving DecidableEq, Repr

/-- Response of one sync action: HTTP status, the batch `success` field
(absent for `get-states`), the per-token results and the summary message. -/
structure SyncOut where
  status : Nat
  success : Option Bool := none
  error : Option String := none
  results : List TokenResult := []
  message : Option String := none
deriving DecidableEq, Repr

/-- Per-token aggregation of `play-sync`
(`{success: response.ok, status: response.status, error: extracted-or-null}`,
and `{success: false, error: error.message}` on a thrown error). -/
def playTokenResult : FetchOutcome → TokenResult
  | .resp ok st e => { success := ok, status := some st, error := if ok then none else e }
  | .netErr m => { success := false, error := some m }

/-- Per-token aggregation of `pause-sync` / `resume-sync`
(`{success: response.ok, status: response.status}`). -/
def pauseTokenResult : FetchOutcome → TokenResult
  | .resp ok st _ => { success := ok, status := some st }
  | .netErr m => { success := false, error := some m }

/-- Per-token aggregation of `seek-sync` / `skip-sync`
(`{success: response.ok}` only). -/
def seekTokenResult : FetchOutcome → TokenResult
  | .resp ok _ _ => { success := ok }
  | .netErr m => { success := false, error := some m }

/-- `case 'play-sync'`: requires a track URI, issues one request per token
(`Promise.all` never aborts the batch), and reports batch
`success: successCount > 0`. -/
def playSync (tokens : List String) (oracle : String → FetchOutcome)
    (trackUri : Option String) : SyncOut :=
  if !strTruthy trackUri then
    { status := 400, error := some "Track URI required" }
  else
    let results := tokens.map (fun t => playTokenResult (oracle t))
    let successCount := (results.filter (fun r => r.success)).length
    let n := tokens.length
    { status := 200, success := some (decide (0 < successCount))
      results := results
      message := some s!"Synced playback to {successCount}/{n} devices" }

/-- `case 'pause-sync'`: one request per token; the batch `success` field is
the literal `true`, regardless of the per-token outcomes. -/
def pauseSync (tokens : List String) (oracle : String → FetchOutcome) : SyncOut :=
  let results := tokens.map (fun t => pauseTokenResult (oracle t))
  let successCount := (results.filter (fun r => r.success)).length
  let n := tokens.length
  { status := 200, success := some true, results := results
    message := some s!"Paused {successCount}/{n} devices" }

/-- `case 'resume-sync'`: same aggregation as `pause-sync` against the play
endpoint; batch `success` is again the literal `true`. -/
def resumeSync (tokens : List String) (oracle : String → FetchOutcome) : SyncOut :=
  let results := tokens.map (fun t => pauseTokenResult (oracle t))
  let successCount := (results.filter (fun r => r.success)).length
  let n := tokens.length
  { status := 200, success := some true, results := results
    message := some s!"Resumed {successCount}/{n} devices" }

/-- `case 'seek-sync'`: requires a position; per-token `{success}` results;
batch `success` is the literal `true`. -/
def seekSync (tokens : List String) (oracle : String → FetchOutcome)
    (position : Option Int) : SyncOut :=
  match position with
  | none => { status := 400, error := some "Position required" }
  | some _ =>
    let results := tokens.map (fun t => seekTokenResult (oracle t))
    let successCount := (results.filter (fun r => r.success)).length
    let n := tokens.length
    { status := 200, success := some true, results := results
      message := some s!"Synced position on {successCount}/{n} devices" }

/-- `case 'skip-sync'`: per-token `{success}` results; batch `success` is
the literal `true`. -/
def skipSync (tokens : List String) (oracle : String → FetchOutcome) : SyncOut :=
  let results := tokens.map (fun t => seekTokenResult (oracle t))
  let successCount := (results.filter (fun r => r.success)).length
  let n := tokens.length
  { status := 200, success := some true, results := results
    message := some s!"Skipped on {successCount}/{n} devices" }

/-- Outcome of one `currently-playing` fetch for `get-states`: 204 (no
content), a playback snapshot, or a thrown network error. -/
inductive StateFetch where
  | noContent
  | data (isPlaying : Bool) (trackId trackName : Option String)
      (position : Option Int) (timestamp : Int)
  | netErr (msg : String)
deriving DecidableEq, Repr

/-- One per-token state snapshot as built by `get-states`. -/
structure StateItem where
  user : Nat
  playing : Option Bool := none
  trackId : Option String := none
  trackName : Option String := none
  position : Option Int := none
  timestamp : Option Int := none
  error : Option String := none
deriving DecidableEq, Repr

/-- Per-token aggregation of `get-states`. -/
def stateResult (idx : Nat) : StateFetch → StateItem
  | .noContent => { user := idx, playing := some false }
  | .data p tid tname pos ts =>
    { user := idx, playing := some p, trackId := tid, trackName := tname
      position := pos, timestamp := some ts }
  | .netErr m => { user := idx, error := some m }

/-- Response of `get-states`: the snapshots, the drift metric
`max(positions) - min(positions)` over tokens that reported a position, and
its coarse quality label. This response carries no `success` field. -/
structure StatesOut where
  status : Nat
  states : List StateItem
  syncQuality : String
  driftMs : Int
deriving DecidableEq, Repr

/-- `case 'get-states'`: one snapshot per token; drift is the spread of the
reported positions (0 when none is reported), bucketed at 1s and 3s. -/
def getStates (tokens : List String) (oracle : Nat → String → StateFetch) : StatesOut :=
  let states := tokens.enum.map (fun p => stateResult p.1 (oracle p.1 p.2))
  let positions := states.filterMap (fun st => st.position)
  let maxDrift :=
    match positions with
    | [] => 0
    | p :: ps => ps.foldl max p - ps.foldl min p
  { status := 200, states := states
    syncQuality := if maxDrift < 1000 then "excellent"
      else if maxDrift < 3000 then "good" else "poor"
    driftMs := maxDrift }

end SyncApi

-- ===================== Vote sequences =====================

/-- The body of one `vote` request (the fields the handler destructures). -/
structure VoteReq where
  code : Option String
  trackId : Option String
  voterId : Option String
  voteType : Option String
  now : Int
deriving DecidableEq, Repr

/-- The session state after one `vote` call (error responses leave the
record as it was). -/
def voteSessionStep (s : Session) (r : VoteReq) : Session :=
  ((SessionApi.vote (some s) r.code r.trackId r.voterId r.voteType r.now).session).getD s

/-- The session state after an arbitrary sequence of `vote` calls. -/
def applyVotes (reqs : List VoteReq) (s : Session) : Session :=
  reqs.foldl voteSessionStep s

-- ===================== Sample data =====================

/-- Default settings as initialised by `create`. -/
def defaultSettings : Settings :=
  { allowVoting := true, allowGuestRemove := false, autoPlay := true
    syncPlayback := true }

/-- A concrete track payload. -/
def sampleTrack (i : String) : Track :=
  { id := i, name := "Song " ++ i, artists := "Artist", album := "Album"
    albumArt := "art.jpg", duration := 200000, uri := "spotify:track:" ++ i }

/-- A concrete queue item added by the host. -/
def sampleItem (i : String) (votes : Int) (votedBy : List String) : QueueItem :=
  { toTrack := sampleTrack i, addedBy := "Host", addedById := some "host"
    addedAt := 0, votes := votes, votedBy := votedBy }

/-- A concrete freshly-created session. -/
def baseSession : Session :=
  { code := "ABCDEF", hostId := some "host", hostName := "Host"
    hostToken := "hostTok", queue := [], guests := [], history := []
    reactions := [], playRequests := [], currentTrack := none
    isPlaying := false, createdAt := 0, lastActivity := 0
    settings := defaultSettings }

/-- A session whose history already holds 50 played tracks and whose queue
is non-empty while a track is playing. -/
def ex3Session : Session :=
  { baseSession with
    queue := [sampleItem "q1" 1 ["host"]]
    history := List.replicate 50 { toTrack := sampleTrack "h0", playedAt := 0 }
    currentTrack := some (sampleTrack "cur")
    isPlaying := true }

/-- A session with a playing track, a two-element queue, one guest with a
stored token and one without. -/
def ex5Session : Session :=
  { baseSession with
    queue := [sampleItem "q1" 1 ["host"], sampleItem "q2" 1 ["host"]]
    guests :=
      [{ id := "g1", name := "Gwen", token := some "guestTok1", joinedAt := 0 },
       { id := "g2", name := "Hal", token := none, joinedAt := 0 }]
    currentTrack := some (sampleTrack "cur")
    isPlaying := true }

/-- A session with two queued tracks for the vote-toggle claim. -/
def ex6Session : Session :=
  { baseSession with
    queue := [sampleItem "a" 1 ["host"], sampleItem "b" 2 ["host", "g2"]] }

/-- A session with vote ties in the queue for the stable-sort claim. -/
def ex7Session : Session :=
  { baseSession with
    queue := [sampleItem "a" 2 ["host", "g2"], sampleItem "b" 1 ["host"],
              sampleItem "c" 1 ["host"]] }

/-- A queue item added by guest `g9`. -/
def ex8Item : QueueItem :=
  { toTrack := sampleTrack "a", addedBy := "Gus", addedById := some "g9"
    addedAt := 0, votes := 1, votedBy := ["g9"] }

/-- A session whose single queued track was added by guest `g9`. -/
def ex8Session : Session :=
  { baseSession with queue := [ex8Item] }

/-- A session with two pending play requests. -/
def ex10Session : Session :=
  { baseSession with
    playRequests :=
      [{ track := sampleTrack "a", requestedBy := "Gwen"
         requestedById := some "g1", requestedAt := 3 },
       { track := sampleTrack "b", requestedBy := "Hal"
         requestedById := some "g2", requestedAt := 4 }]
    lastActivity := 99 }

-- ===================== Auxiliary lemmas =====================

theorem modifyFirst_append (p : α → Bool) (f : α → α) (l₁ l₂ : List α) (a : α)
    (h₁ : ∀ x ∈ l₁, p x = false) (ha : p a = true) :
    modifyFirst p f (l₁ ++ a :: l₂) = l₁ ++ f a :: l₂ := by
  induction l₁ with
  | nil => simp [modifyFirst, ha]
  | cons x xs ih =>
    have hx : p x = false := h₁ x (by simp)
    simp [modifyFirst, hx, ih (fun y hy => h₁ y (by simp [hy]))]

theorem removeFirst_append (p : α → Bool) (l₁ l₂ : List α) (a : α)
    (h₁ : ∀ x ∈ l₁, p x = false) (ha : p a = true) :
    removeFirst p (l₁ ++ a :: l₂) = l₁ ++ l₂ := by
  induction l₁ with
  | nil => simp [removeFirst, ha]
  | cons x xs ih =>
    have hx : p x = false := h₁ x (by simp)
    simp [removeFirst, hx, ih (fun y hy => h₁ y (by simp [hy]))]

theorem removeFirst_sublist (p : α → Bool) (l : List α) :
    (removeFirst p l).Sublist l := by
  induction l with
  | nil => simp [removeFirst]
  | cons x xs ih =>
    by_cases hx : p x = true
    · simp [removeFirst, hx]
    · simp [removeFirst, hx]
      exact ih

theorem find?_decomp {p : α → Bool} {l : List α} {a : α}
    (h : l.find? p = some a) :
    ∃ l₁ l₂, l = l₁ ++ a :: l₂ ∧ ∀ x ∈ l₁, p x = false := by
  induction l with
  | nil => simp at h
  | cons x xs ih =>
    by_cases hx : p x = true
    · rw [List.find?_cons_of_pos _ hx] at h
      cases h
      exact ⟨[], xs, rfl, by simp⟩
    · rw [List.find?_cons_of_neg _ hx] at h
      obtain ⟨l₁, l₂, rfl, hl₁⟩ := ih h
      refine ⟨x :: l₁, l₂, rfl, ?_⟩
      intro y hy
      rcases List.mem_cons.mp hy with rfl | hy'
      · exact Bool.not_eq_true _ ▸ Bool.of_not_eq_true hx
      · exact hl₁ y hy'

theorem find?_eq_some_of_unique {p : α → Bool} {l : List α} {a : α}
    (hmem : a ∈ l) (hpa : p a = true)
    (huniq : ∀ x ∈ l, p x = true → x = a) :
    l.find? p = some a := by
  induction l with
  | nil => simp at hmem
  | cons x xs ih =>
    by_cases hx : p x = true
    · have hxa : x = a := huniq x (by simp) hx
      subst hxa
      rw [List.find?_cons_of_pos _ hx]
    · rw [List.find?_cons_of_neg _ hx]
      have hma : a ∈ xs := by
        rcases List.mem_cons.mp hmem with rfl | h'
        · exact absurd hpa hx
        · exact h'
      exact ih hma (fun y hy hpy => huniq y (by simp [hy]) hpy)

theorem mem_modifyFirst {p : α → Bool} {f : α → α} {l : List α} {x : α}
    (h : x ∈ modifyFirst p f l) : x ∈ l ∨ ∃ y ∈ l, x = f y := by
  induction l with
  | nil => simp [modifyFirst] at h
  | cons z zs ih =>
    by_cases hz : p z = true
    · simp only [modifyFirst, hz, if_pos, List.mem_cons] at h
      rcases h with h | h
      · exact Or.inr ⟨z, by simp, h⟩
      · exact Or.inl (by simp [h])
    · simp only [modifyFirst, hz, Bool.false_eq_true, if_neg, List.mem_cons,
        not_false_iff] at h
      rcases h with h | h
      · exact Or.inl (by simp [h])
      · rcases ih h with h' | ⟨y, hy, hxy⟩
        · exact Or.inl (by simp [h'])
        · exact Or.inr ⟨y, by simp [hy], hxy⟩

theorem map_modifyFirst (g : α → β) (p : α → Bool) (f : α → α) (l : List α)
    (hg : ∀ x, g (f x) = g x) :
    (modifyFirst p f l).map g = l.map g := by
  induction l with
  | nil => rfl
  | cons x xs ih =>
    by_cases hx : p x = true
    · simp [modifyFirst, hx, hg]
    · simp [modifyFirst, hx, ih]

theorem voteToggle_id (v : String) (t : QueueItem) :
    (voteToggle v t).id = t.id := by
  unfold voteToggle
  split <;> rfl

theorem voteToggle_nonneg (v : String) (t : QueueItem) (h : 0 ≤ t.votes) :
    0 ≤ (voteToggle v t).votes := by
  unfold voteToggle
  split
  · exact le_max_left 0 _
  · show 0 ≤ t.votes + 1
    omega

/-- Accumulation of sync tokens (`tokens = [init...]; forEach push`) equals
the initial list followed by the truthy guest tokens in order. -/
theorem tokens_foldl (gs : List Guest) (init : List String) :
    gs.foldl (fun acc g => if strTruthy g.token then acc ++ [g.token.getD ""] else acc) init
      = init ++ gs.filterMap (fun g => if strTruthy g.token then g.token else none) := by
  induction gs generalizing init with
  | nil => simp
  | cons g gs ih =>
    rcases h : strTruthy g.token with _ | _
    · simp [h, ih]
    · obtain ⟨t, hg⟩ : ∃ u, g.token = some u := by
        rcases hG : g.token with _ | u
        · rw [hG] at h; simp [strTruthy] at h
        · exact ⟨u, rfl⟩
      rw [hg] at h
      simp [hg, h, ih, List.append_assoc]

/-- Reduction of a `vote` call along its success path. -/
theorem vote_success (s : Session) (code tid : String) (vid vt : Option String)
    (now : Int) (t0 : QueueItem)
    (hcode : code.isEmpty = false) (htid : tid.isEmpty = false)
    (hvoting : s.settings.allowVoting = true)
    (hfind : s.queue.find? (fun t => t.id == tid) = some t0) :
    SessionApi.vote (some s) (some code) (some tid) vid vt now =
      { status := 200, success := some true
        queue := some (stableSortVotes (modifyFirst (fun t => t.id == tid)
          (voteToggle (orDefault vid "anonymous")) s.queue))
        session := some { s with
          queue := stableSortVotes (modifyFirst (fun t => t.id == tid)
            (voteToggle (orDefault vid "anonymous")) s.queue)
          lastActivity := now } } := by
  simp [SessionApi.vote, strTruthy, hcode, htid, hvoting, hfind]

/-- One successful vote at the queue level: after toggling the first entry
with the voted id and re-sorting, the (unique) entry with that id is the
toggled one, and the queue's ids stay duplicate-free. -/
theorem voteStep_queue (q : List QueueItem) (tid voter : String) (t0 : QueueItem)
    (hnodup : (q.map (fun t => t.id)).Nodup)
    (hfind : q.find? (fun t => t.id == tid) = some t0) :
    (stableSortVotes (modifyFirst (fun t => t.id == tid) (voteToggle voter) q)).find?
        (fun t => t.id == tid) = some (voteToggle voter t0)
      ∧ ((stableSortVotes (modifyFirst (fun t => t.id == tid) (voteToggle voter) q)).map
          (fun t => t.id)).Nodup := by
  set p : QueueItem → Bool := fun t => t.id == tid with hp
  set q1 := modifyFirst p (voteToggle voter) q with hq1
  have hperm : (stableSortVotes q1).Perm q1 := List.perm_insertionSort _ _
  have hids : q1.map (fun t => t.id) = q.map (fun t => t.id) :=
    map_modifyFirst _ _ _ _ (voteToggle_id voter)
  have hnodup1 : (q1.map (fun t => t.id)).Nodup := hids ▸ hnodup
  have hnodup2 : ((stableSortVotes q1).map (fun t => t.id)).Nodup :=
    ((hperm.map _).nodup_iff).mpr hnodup1
  obtain ⟨l₁, l₂, hdec, hl₁⟩ := find?_decomp hfind
  have hpt0 : p t0 = true := List.find?_some hfind
  have hq1eq : q1 = l₁ ++ voteToggle voter t0 :: l₂ := by
    rw [hq1, hdec]
    exact modifyFirst_append p (voteToggle voter) l₁ l₂ t0 hl₁ hpt0
  have hmem1 : voteToggle voter t0 ∈ q1 := by rw [hq1eq]; simp
  have hmem : voteToggle voter t0 ∈ stableSortVotes q1 := hperm.mem_iff.mpr hmem1
  have hpt : p (voteToggle voter t0) = true := by
    show ((voteToggle voter t0).id == tid) = true
    rw [voteToggle_id]
    exact hpt0
  refine ⟨find?_eq_some_of_unique hmem hpt ?_, hnodup2⟩
  intro x hx hpx
  have hxt : x.id = (voteToggle voter t0).id := by
    have h1 : x.id = tid := by simpa [hp] using hpx
    have h2 : (voteToggle voter t0).id = tid := by simpa [hp] using hpt
    rw [h1, h2]
  exact List.inj_on_of_nodup_map hnodup2 hx hmem hxt

/-- One `vote` call keeps every queued vote count nonnegative. -/
theorem voteSessionStep_nonneg (s : Session) (r : VoteReq)
    (h : s.queue.all (fun t => decide (0 ≤ t.votes)) = true) :
    (voteSessionStep s r).queue.all (fun t => decide (0 ≤ t.votes)) = true := by
  by_cases h1 : (strTruthy r.code && strTruthy r.trackId) = true
  · by_cases h2 : s.settings.allowVoting = true
    · rcases hf : s.queue.find? (fun t => t.id == (r.trackId.getD "")) with _ | t0
      · simp [voteSessionStep, SessionApi.vote, h1, h2, hf, h]
      · simp only [voteSessionStep, SessionApi.vote, h1, Bool.not_true,
          Bool.false_eq_true, if_false, h2, hf]
        simp only [Option.getD_some]
        rw [List.all_eq_true] at h ⊢
        intro x hx
        have hx1 : x ∈ modifyFirst (fun t => t.id == (r.trackId.getD ""))
            (voteToggle (orDefault r.voterId "anonymous")) s.queue :=
          (List.perm_insertionSort _ _).mem_iff.mp hx
        rcases mem_modifyFirst hx1 with hmem | ⟨y, hy, rfl⟩
        · exact h x hmem
        · have hy' := h y hy
          simp only [decide_eq_true_eq] at hy' ⊢
          exact voteToggle_nonneg _ _ hy'
    · have h2' : s.settings.allowVoting = false := Bool.of_not_eq_true h2
      simp [voteSessionStep, SessionApi.vote, h1, h2', h]
  · have h1' : (strTruthy r.code && strTruthy r.trackId) = false := Bool.of_not_eq_true h1
    simp [voteSessionStep, SessionApi.vote, h1', h]

/-- A whole sequence of `vote` calls keeps every queued vote count
nonnegative. -/
theorem applyVotes_nonneg (reqs : List VoteReq) (s : Session)
    (h : s.queue.all (fun t => decide (0 ≤ t.votes)) = true) :
    (applyVotes reqs s).queue.all (fun t => decide (0 ≤ t.votes)) = true := by
  induction reqs generalizing s with
  | nil => simpa [applyVotes] using h
  | cons r rs ih =>
    simp only [applyVotes, List.foldl_cons]
    exact ih _ (voteSessionStep_nonneg s r h)

-- ===================== Claim theorems =====================

/-- Claim C9: for every session state and every `vote` request, the
response and the resulting session state are identical for every value of
the request's `voteType` field — the field is destructured from the body
but never influences behaviour. -/
theorem C9_voteType_noninterference (lookup : Option Session)
    (code trackId voterId vt1 vt2 : Option String) (now : Int) :
    SessionApi.vote lookup code trackId voterId vt1 now =
      SessionApi.vote lookup code trackId voterId vt2 now := rfl

/-- Claim C2, counterexample: in the in-memory variant
(`src/api/session.js`), `leave` against a nonexistent session answers
404 "Session not found" rather than succeeding silently, so the claimed
behaviour does not hold in every session-store variant. -/
theorem C2_counterexample :
    (MemApi.leave none (some "ABC123") (some "guest1") 0).status = 404 ∧
    (MemApi.leave none (some "ABC123") (some "guest1") 0).error =
      some "Session not found" := by
  constructor <;> rfl

/-- Claim C2 (amended): against a nonexistent session, `leave` and
`update-token` succeed silently in the KV variant; in the in-memory
variant `leave` answers 404 and `update-token` is not even a recognized
action (it falls to the dispatcher's default 400 "Invalid action" branch). -/
theorem C2_absent_session (code guestId oderId userId newToken : Option String)
    (isHost : Bool) (now : Int)
    (hc : strTruthy code = true) (ht : strTruthy newToken = true) :
    (KvApi.leave none code guestId now).status = 200 ∧
    (KvApi.leave none code guestId now).success = some true ∧
    (KvApi.updateToken none code oderId userId newToken isHost now).status = 200 ∧
    (KvApi.updateToken none code oderId userId newToken isHost now).success = some true ∧
    (MemApi.leave none code guestId now).status = 404 ∧
    (MemApi.leave none code guestId now).error = some "Session not found" ∧
    MemApi.recognizes "update-token" = false := by
  refine ⟨?_, ?_, ?_, ?_, ?_, ?_, by decide⟩ <;>
    simp [KvApi.leave, KvApi.updateToken, MemApi.leave, hc, ht]

/-- Witness for `C2_absent_session` at concrete inputs. -/
theorem C2_absent_session_witness :
    (KvApi.leave none (some "ABC123") (some "guest1") 7).status = 200 ∧
    (KvApi.leave none (some "ABC123") (some "guest1") 7).success = some true ∧
    (KvApi.updateToken none (some "ABC123") (some "g0") (some "u1") (some "newTok")
      false 7).status = 200 ∧
    (KvApi.updateToken none (some "ABC123") (some "g0") (some "u1") (some "newTok")
      false 7).success = some true ∧
    (MemApi.leave none (some "ABC123") (some "guest1") 7).status = 404 ∧
    (MemApi.leave none (some "ABC123") (some "guest1") 7).error =
      some "Session not found" ∧
    MemApi.recognizes "update-token" = false :=
  C2_absent_session (some "ABC123") (some "guest1") (some "g0") (some "u1")
    (some "newTok") false 7 (by decide) (by decide)

/-- Claim C4, counterexample: `end` called with a code for which no session
exists answers HTTP 200 (`success: false`, "Session not found" message) in
the in-memory variant — not a 404-class not-found error. -/
theorem C4_counterexample :
    (MemApi.endSession (some "ABC123") false).status = 200 ∧
    (MemApi.endSession (some "ABC123") false).success = some false ∧
    (MemApi.endSession (some "ABC123") false).message =
      some "Session not found" := by
  refine ⟨?_, ?_, ?_⟩ <;> rfl

/-- Claim C4 (amended): every session-loading handler other than `leave`,
`update-token` and `end` signals 404 on an unknown code; `end` never
checks existence and answers 200 — with `success = false` in the in-memory
variant (`Map.delete` of an absent key) and with `success` reflecting only
KV-client health in the KV variant. -/
theorem C4_not_found (code guestName guestId guestToken voterId vt requesterId
      userName userId addedBy addedById trackId emoji : Option String)
    (track : Track) (patch : SettingsPatch) (isHost kvDelOk : Bool) (now : Int)
    (hc : strTruthy code = true) (htid : strTruthy trackId = true)
    (hemoji : strTruthy emoji = true) :
    (SessionApi.join none code guestName guestId guestToken now).status = 404 ∧
    (SessionApi.get none code now).status = 404 ∧
    (MemApi.getAllTokens none code).status = 404 ∧
    (KvApi.getAllTokens none code).status = 404 ∧
    (SessionApi.addTrack none code (some track) addedBy addedById now).status = 404 ∧
    (SessionApi.vote none code trackId voterId vt now).status = 404 ∧
    (SessionApi.removeTrack none code trackId requesterId isHost now).status = 404 ∧
    (SessionApi.updateTrack none code (some track) now).status = 404 ∧
    (SessionApi.playNext none code now).status = 404 ∧
    (SessionApi.react none code emoji userName userId now).status = 404 ∧
    (SessionApi.requestPlay none code (some track) addedBy addedById now).status = 404 ∧
    (SessionApi.clearRequest none code trackId).status = 404 ∧
    (SessionApi.updateSettings none code (some patch) now).status = 404 ∧
    (MemApi.endSession code false).status = 200 ∧
    (MemApi.endSession code false).success = some false ∧
    (KvApi.endSession code kvDelOk).status = 200 ∧
    (KvApi.endSession code kvDelOk).success = some kvDelOk := by
  refine ⟨?_, ?_, ?_, ?_, ?_, ?_, ?_, ?_, ?_, ?_, ?_, ?_, ?_, ?_, ?_, ?_, ?_⟩ <;>
    simp [SessionApi.join, SessionApi.get, MemApi.getAllTokens, KvApi.getAllTokens,
      SessionApi.addTrack, SessionApi.vote, SessionApi.removeTrack,
      SessionApi.updateTrack, SessionApi.playNext, SessionApi.react,
      SessionApi.requestPlay, SessionApi.clearRequest, SessionApi.updateSettings,
      MemApi.endSession, KvApi.endSession, hc, htid, hemoji]

/-- Witness for `C4_not_found` at concrete inputs. -/
theorem C4_not_found_witness :
    (SessionApi.join none (some "ABC123") (some "Gwen") (some "g1") (some "tok") 9).status = 404 ∧
    (SessionApi.get none (some "ABC123") 9).status = 404 ∧
    (MemApi.getAllTokens none (some "ABC123")).status = 404 ∧
    (KvApi.getAllTokens none (some "ABC123")).status = 404 ∧
    (SessionApi.addTrack none (some "ABC123") (some (sampleTrack "a")) (some "Gwen")
      (some "g1") 9).status = 404 ∧
    (SessionApi.vote none (some "ABC123") (some "a") (some "g1") none 9).status = 404 ∧
    (SessionApi.removeTrack none (some "ABC123") (some "a") (some "g1") false 9).status = 404 ∧
    (SessionApi.updateTrack none (some "ABC123") (some (sampleTrack "a")) 9).status = 404 ∧
    (SessionApi.playNext none (some "ABC123") 9).status = 404 ∧
    (SessionApi.react none (some "ABC123") (some "🔥") (some "Gwen") (some "g1") 9).status = 404 ∧
    (SessionApi.requestPlay none (some "ABC123") (some (sampleTrack "a")) (some "Gwen")
      (some "g1") 9).status = 404 ∧
    (SessionApi.clearRequest none (some "ABC123") (some "a")).status = 404 ∧
    (SessionApi.updateSettings none (some "ABC123")
      (some { allowVoting := some false }) 9).status = 404 ∧
    (MemApi.endSession (some "ABC123") false).status = 200 ∧
    (MemApi.endSession (some "ABC123") false).success = some false ∧
    (KvApi.endSession (some "ABC123") true).status = 200 ∧
    (KvApi.endSession (some "ABC123") true).success = some true :=
  C4_not_found (some "ABC123") (some "Gwen") (some "g1") (some "tok") (some "g1")
    none (some "g1") (some "Gwen") (some "g1") (some "Gwen") (some "g1") (some "a")
    (some "🔥") (sampleTrack "a") { allowVoting := some false } false true 9
    (by decide) (by decide) (by decide)

/-- Claim C10: `clear-request` on an existing session rewrites only
`playRequests` (dropping the entries whose track id equals the given id);
every other field of the session record — including `lastActivity`, which
every other mutating handler refreshes — is unchanged. -/
theorem C10_clear_request_frame (s : Session) (code : String) (tid : Option String)
    (hc : code.isEmpty = false) :
    (SessionApi.clearRequest (some s) (some code) tid).status = 200 ∧
    (SessionApi.clearRequest (some s) (some code) tid).session =
      some { s with playRequests :=
        s.playRequests.filter (fun r => !(some r.track.id == tid)) } ∧
    ((SessionApi.clearRequest (some s) (some code) tid).session.getD s).lastActivity
      = s.lastActivity ∧
    ((SessionApi.clearRequest (some s) (some code) tid).session.getD s).queue = s.queue ∧
    ((SessionApi.clearRequest (some s) (some code) tid).session.getD s).history
      = s.history ∧
    ((SessionApi.clearRequest (some s) (some code) tid).session.getD s).guests
      = s.guests ∧
    ((SessionApi.clearRequest (some s) (some code) tid).session.getD s).reactions
      = s.reactions ∧
    ((SessionApi.clearRequest (some s) (some code) tid).session.getD s).currentTrack
      = s.currentTrack ∧
    ((SessionApi.clearRequest (some s) (some code) tid).session.getD s).isPlaying
      = s.isPlaying ∧
    ((SessionApi.clearRequest (some s) (some code) tid).session.getD s).settings
      = s.settings ∧
    ((SessionApi.clearRequest (some s) (some code) tid).session.getD s).hostToken
      = s.hostToken ∧
    ((SessionApi.clearRequest (some s) (some code) tid).session.getD s).createdAt
      = s.createdAt := by
  refine ⟨?_, ?_, ?_, ?_, ?_, ?_, ?_, ?_, ?_, ?_, ?_, ?_⟩ <;>
    simp [SessionApi.clearRequest, strTruthy, hc]

/-- Witness for `C10_clear_request_frame` at concrete inputs. -/
theorem C10_clear_request_frame_witness :
    (SessionApi.clearRequest (some ex10Session) (some "ABCDEF") (some "a")).status = 200 ∧
    (SessionApi.clearRequest (some ex10Session) (some "ABCDEF") (some "a")).session =
      some { ex10Session with playRequests :=
        ex10Session.playRequests.filter (fun r => !(some r.track.id == some "a")) } ∧
    ((SessionApi.clearRequest (some ex10Session) (some "ABCDEF") (some "a")).session.getD
      ex10Session).lastActivity = ex10Session.lastActivity ∧
    ((SessionApi.clearRequest (some ex10Session) (some "ABCDEF") (some "a")).session.getD
      ex10Session).queue = ex10Session.queue ∧
    ((SessionApi.clearRequest (some ex10Session) (some "ABCDEF") (some "a")).session.getD
      ex10Session).history = ex10Session.history ∧
    ((SessionApi.clearRequest (some ex10Session) (some "ABCDEF") (some "a")).session.getD
      ex10Session).guests = ex10Session.guests ∧
    ((SessionApi.clearRequest (some ex10Session) (some "ABCDEF") (some "a")).session.getD
      ex10Session).reactions = ex10Session.reactions ∧
    ((SessionApi.clearRequest (some ex10Session) (some "ABCDEF") (some "a")).session.getD
      ex10Session).currentTrack = ex10Session.currentTrack ∧
    ((SessionApi.clearRequest (some ex10Session) (some "ABCDEF") (some "a")).session.getD
      ex10Session).isPlaying = ex10Session.isPlaying ∧
    ((SessionApi.clearRequest (some ex10Session) (some "ABCDEF") (some "a")).session.getD
      ex10Session).settings = ex10Session.settings ∧
    ((SessionApi.clearRequest (some ex10Session) (some "ABCDEF") (some "a")).session.getD
      ex10Session).hostToken = ex10Session.hostToken ∧
    ((SessionApi.clearRequest (some ex10Session) (some "ABCDEF") (some "a")).session.getD
      ex10Session).createdAt = ex10Session.createdAt :=
  C10_clear_request_frame ex10Session "ABCDEF" (some "a") (by decide)

/-- Claim C1, counterexample: `pause-sync` with a single token whose request
fails still reports batch `success: true` although zero per-token results
succeeded, refuting "batch `success` is true iff at least one per-token
result succeeded" for every recognized action. -/
theorem C1_counterexample :
    (SyncApi.pauseSync ["tokenA"]
      (fun _ => SyncApi.FetchOutcome.netErr "ECONNREFUSED")).success = some true ∧
    ((SyncApi.pauseSync ["tokenA"]
      (fun _ => SyncApi.FetchOutcome.netErr "ECONNREFUSED")).results.filter
        (fun r => r.success)).length = 0 ∧
    (SyncApi.pauseSync ["tokenA"]
      (fun _ => SyncApi.FetchOutcome.netErr "ECONNREFUSED")).results.length = 1 := by
  refine ⟨?_, ?_, ?_⟩ <;> rfl

/-- Claim C1 (amended): every sync action returns exactly one per-token
result per token and never aborts the batch; batch `success` is true iff
at least one per-token result succeeded for `play-sync` only, while
`pause-sync`, `resume-sync`, `seek-sync` and `skip-sync` report the literal
`success: true` regardless of outcomes (`get-states` has no batch
`success` field at all). -/
theorem C1_fanout (tokens : List String) (oracle : String → SyncApi.FetchOutcome)
    (oracleS : Nat → String → SyncApi.StateFetch) (uri : String) (pos : Int)
    (huri : uri.isEmpty = false) :
    ((SyncApi.playSync tokens oracle (some uri)).results.length = tokens.length ∧
      ((SyncApi.playSync tokens oracle (some uri)).success = some true ↔
        0 < ((SyncApi.playSync tokens oracle (some uri)).results.filter
          (fun r => r.success)).length)) ∧
    ((SyncApi.pauseSync tokens oracle).results.length = tokens.length ∧
      (SyncApi.pauseSync tokens oracle).success = some true) ∧
    ((SyncApi.resumeSync tokens oracle).results.length = tokens.length ∧
      (SyncApi.resumeSync tokens oracle).success = some true) ∧
    ((SyncApi.seekSync tokens oracle (some pos)).results.length = tokens.length ∧
      (SyncApi.seekSync tokens oracle (some pos)).success = some true) ∧
    ((SyncApi.skipSync tokens oracle).results.length = tokens.length ∧
      (SyncApi.skipSync tokens oracle).success = some true) ∧
    (SyncApi.getStates tokens oracleS).states.length = tokens.length := by
  refine ⟨⟨?_, ?_⟩, ⟨?_, ?_⟩, ⟨?_, ?_⟩, ⟨?_, ?_⟩, ⟨?_, ?_⟩, ?_⟩ <;>
    simp [SyncApi.playSync, SyncApi.pauseSync, SyncApi.resumeSync, SyncApi.seekSync,
      SyncApi.skipSync, SyncApi.getStates, strTruthy, huri]

/-- Witness for `C1_fanout` at concrete inputs. -/
theorem C1_fanout_witness :
    ((SyncApi.playSync ["a", "b"] (fun _ => SyncApi.FetchOutcome.resp true 204 none)
        (some "spotify:track:x")).results.length = ["a", "b"].length ∧
      ((SyncApi.playSync ["a", "b"] (fun _ => SyncApi.FetchOutcome.resp true 204 none)
        (some "spotify:track:x")).success = some true ↔
        0 < ((SyncApi.playSync ["a", "b"] (fun _ => SyncApi.FetchOutcome.resp true 204 none)
          (some "spotify:track:x")).results.filter (fun r => r.success)).length)) ∧
    ((SyncApi.pauseSync ["a", "b"] (fun _ => SyncApi.FetchOutcome.resp true 204 none)).results.length
        = ["a", "b"].length ∧
      (SyncApi.pauseSync ["a", "b"] (fun _ => SyncApi.FetchOutcome.resp true 204 none)).success
        = some true) ∧
    ((SyncApi.resumeSync ["a", "b"] (fun _ => SyncApi.FetchOutcome.resp true 204 none)).results.length
        = ["a", "b"].length ∧
      (SyncApi.resumeSync ["a", "b"] (fun _ => SyncApi.FetchOutcome.resp true 204 none)).success
        = some true) ∧
    ((SyncApi.seekSync ["a", "b"] (fun _ => SyncApi.FetchOutcome.resp true 204 none)
        (some 0)).results.length = ["a", "b"].length ∧
      (SyncApi.seekSync ["a", "b"] (fun _ => SyncApi.FetchOutcome.resp true 204 none)
        (some 0)).success = some true) ∧
    ((SyncApi.skipSync ["a", "b"] (fun _ => SyncApi.FetchOutcome.resp true 204 none)).results.length
        = ["a", "b"].length ∧
      (SyncApi.skipSync ["a", "b"] (fun _ => SyncApi.FetchOutcome.resp true 204 none)).success
        = some true) ∧
    (SyncApi.getStates ["a", "b"] (fun _ _ => SyncApi.StateFetch.noContent)).states.length
      = ["a", "b"].length :=
  C1_fanout ["a", "b"] (fun _ => SyncApi.FetchOutcome.resp true 204 none)
    (fun _ _ => SyncApi.StateFetch.noContent) "spotify:track:x" 0 (by decide)

/-- Claim C3, counterexample: on a session whose history already holds 50
entries and which has a current track and a non-empty queue, `playNext`
leaves the history at 51 entries — it appends without trimming, so the
50-entry cap is not preserved by every session-mutating operation. -/
theorem C3_counterexample :
    ((SessionApi.playNext (some ex3Session) (some "ABCDEF") 1000).session.map
      (fun x => x.history.length)) = some 51 := by decide

/-- Claim C3 (amended): `update-track` preserves the 50-entry history bound
(evicting oldest first via `slice(-50)`), but `playNext` appends the
previous current track without trimming, growing the history by exactly
one entry. -/
theorem C3_history_cap (s : Session) (code : String) (track : Option Track)
    (now : Int)
    (hcode : code.isEmpty = false)
    (hlen : s.history.length ≤ 50)
    (hcur : s.currentTrack.isSome = true)
    (hq : s.queue ≠ []) :
    (((SessionApi.updateTrack (some s) (some code) track now).session.map
        (fun x => x.history.length)).getD 51 ≤ 50) ∧
    ((SessionApi.playNext (some s) (some code) now).session.map
        (fun x => x.history.length)) = some (s.history.length + 1) := by
  constructor
  · rcases hc : s.currentTrack with _ | c
    · simp [SessionApi.updateTrack, strTruthy, hcode, hc]
      exact hlen
    · rcases hb : (match track with | some t => c.id != t.id | none => true) with _ | _
      · simp [SessionApi.updateTrack, strTruthy, hcode, hc, hb]
        exact hlen
      · by_cases h50 : 50 < s.history.length + 1
        · simp [SessionApi.updateTrack, strTruthy, hcode, hc, hb, h50, sliceLast]
          omega
        · simp [SessionApi.updateTrack, strTruthy, hcode, hc, hb, h50]
          omega
  · rcases hqe : s.queue with _ | ⟨qh, qt⟩
    · exact absurd hqe hq
    · rcases hc : s.currentTrack with _ | c
      · rw [hc] at hcur
        simp at hcur
      · simp [SessionApi.playNext, strTruthy, hcode, hqe, hc]

/-- Witness for `C3_history_cap` at concrete inputs. -/
theorem C3_history_cap_witness :
    (((SessionApi.updateTrack (some ex3Session) (some "ABCDEF")
        (some (sampleTrack "new")) 1000).session.map
        (fun x => x.history.length)).getD 51 ≤ 50) ∧
    ((SessionApi.playNext (some ex3Session) (some "ABCDEF") 1000).session.map
        (fun x => x.history.length)) = some (ex3Session.history.length + 1) :=
  C3_history_cap ex3Session "ABCDEF" (some (sampleTrack "new")) 1000
    (by decide) (by decide) (by decide) (by decide)

/-- Claim C5: `playNext` on an empty queue is rejected with a 400 "Queue is
empty" error leaving the session unchanged; on a non-empty queue it removes
exactly the queue head, makes it the current track, appends the previous
current track (if any) to history before overwriting, and returns the host
token followed by every stored guest token. -/
theorem C5_playNext (s : Session) (code : String) (now : Int)
    (hcode : code.isEmpty = false) :
    (SessionApi.playNext (some s) (some code) now).status =
        (match s.queue with | [] => 400 | _ :: _ => 200) ∧
    (SessionApi.playNext (some s) (some code) now).error =
        (match s.queue with | [] => some "Queue is empty" | _ :: _ => none) ∧
    (SessionApi.playNext (some s) (some code) now).track = s.queue.head? ∧
    (SessionApi.playNext (some s) (some code) now).session =
        (match s.queue with
          | [] => some s
          | qh :: qt => some { s with
              queue := qt
              currentTrack := some qh.toTrack
              isPlaying := true
              lastActivity := now
              history := s.history ++ (match s.currentTrack with
                | some c => [{ toTrack := c, playedAt := now }]
                | none => []) }) ∧
    (SessionApi.playNext (some s) (some code) now).tokens =
        (match s.queue with
          | [] => []
          | _ :: _ => s.hostToken ::
              s.guests.filterMap (fun g => if strTruthy g.token then g.token else none)) := by
  have hsc : strTruthy (some code) = true := by simp [strTruthy, hcode]
  rcases hq : s.queue with _ | ⟨qh, qt⟩ <;>
    rcases hc : s.currentTrack with _ | c <;>
      refine ⟨?_, ?_, ?_, ?_, ?_⟩ <;>
        simp [SessionApi.playNext, hsc, hq, hc, tokens_foldl]

/-- Witness for `C5_playNext` at concrete inputs. -/
theorem C5_playNext_witness :
    (SessionApi.playNext (some ex5Session) (some "ABCDEF") 42).status =
        (match ex5Session.queue with | [] => 400 | _ :: _ => 200) ∧
    (SessionApi.playNext (some ex5Session) (some "ABCDEF") 42).error =
        (match ex5Session.queue with | [] => some "Queue is empty" | _ :: _ => none) ∧
    (SessionApi.playNext (some ex5Session) (some "ABCDEF") 42).track =
      ex5Session.queue.head? ∧
    (SessionApi.playNext (some ex5Session) (some "ABCDEF") 42).session =
        (match ex5Session.queue with
          | [] => some ex5Session
          | qh :: qt => some { ex5Session with
              queue := qt
              currentTrack := some qh.toTrack
              isPlaying := true
              lastActivity := 42
              history := ex5Session.history ++ (match ex5Session.currentTrack with
                | some c => [{ toTrack := c, playedAt := 42 }]
                | none => []) }) ∧
    (SessionApi.playNext (some ex5Session) (some "ABCDEF") 42).tokens =
        (match ex5Session.queue with
          | [] => []
          | _ :: _ => ex5Session.hostToken ::
              ex5Session.guests.filterMap
                (fun g => if strTruthy g.token then g.token else none)) :=
  C5_playNext ex5Session "ABCDEF" 42 (by decide)

/-- Claim C8: `removeTrack` for a track present in the queue succeeds — and
removes exactly that (first-matching) track, the rest keeping their order —
iff the requester is the host, or the track's original adder, or
`allowGuestRemove` is enabled; otherwise it answers 403 and leaves the
session unchanged. -/
theorem C8_removeTrack (s : Session) (code tid : String) (reqId : Option String)
    (isHost : Bool) (now : Int) (tstar : QueueItem)
    (hcode : code.isEmpty = false) (htid : tid.isEmpty = false)
    (hfind : s.queue.find? (fun t => t.id == tid) = some tstar) :
    ((SessionApi.removeTrack (some s) (some code) (some tid) reqId isHost now).status = 200
      ↔ (isHost = true ∨ tstar.addedById = reqId ∨ s.settings.allowGuestRemove = true)) ∧
    (SessionApi.removeTrack (some s) (some code) (some tid) reqId isHost now).session =
      some (if isHost || tstar.addedById == reqId || s.settings.allowGuestRemove then
        { s with queue := removeFirst (fun t => t.id == tid) s.queue
                 lastActivity := now }
      else s) ∧
    ((SessionApi.removeTrack (some s) (some code) (some tid) reqId isHost now).status = 200
      ∨ (SessionApi.removeTrack (some s) (some code) (some tid) reqId isHost now).status = 403) ∧
    s.queue.Perm (tstar :: removeFirst (fun t => t.id == tid) s.queue) ∧
    (removeFirst (fun t => t.id == tid) s.queue).Sublist s.queue := by
  have hperm : s.queue.Perm (tstar :: removeFirst (fun t => t.id == tid) s.queue) := by
    obtain ⟨l₁, l₂, hdec, hl₁⟩ := find?_decomp hfind
    have hpt := List.find?_some hfind
    rw [hdec, removeFirst_append _ _ _ _ hl₁ hpt]
    exact List.perm_middle
  refine ⟨?_, ?_, ?_, hperm, removeFirst_sublist _ _⟩
  · rcases h2 : tstar.addedById == reqId with _ | _
    · have h2' : ¬ tstar.addedById = reqId := by
        intro h
        rw [h] at h2
        simp at h2
      rcases h1 : isHost with _ | _ <;>
        rcases h3 : s.settings.allowGuestRemove with _ | _ <;>
          simp [SessionApi.removeTrack, strTruthy, hcode, htid, hfind, h1, h2, h3, h2']
    · have h2' : tstar.addedById = reqId := by simpa using h2
      rcases h1 : isHost with _ | _ <;>
        rcases h3 : s.settings.allowGuestRemove with _ | _ <;>
          simp [SessionApi.removeTrack, strTruthy, hcode, htid, hfind, h1, h2, h3, h2']
  · rcases h1 : isHost with _ | _ <;>
      rcases h2 : tstar.addedById == reqId with _ | _ <;>
        rcases h3 : s.settings.allowGuestRemove with _ | _ <;>
          simp [SessionApi.removeTrack, strTruthy, hcode, htid, hfind, h1, h2, h3]
  · rcases h1 : isHost with _ | _ <;>
      rcases h2 : tstar.addedById == reqId with _ | _ <;>
        rcases h3 : s.settings.allowGuestRemove with _ | _ <;>
          simp [SessionApi.removeTrack, strTruthy, hcode, htid, hfind, h1, h2, h3]

/-- Witness for `C8_removeTrack` at concrete inputs (the requester is the
track's adder `g9`, not the host, and `allowGuestRemove` is off). -/
theorem C8_removeTrack_witness :
    ((SessionApi.removeTrack (some ex8Session) (some "ABCDEF") (some "a")
        (some "g9") false 11).status = 200
      ↔ (false = true ∨ ex8Item.addedById = some "g9"
          ∨ ex8Session.settings.allowGuestRemove = true)) ∧
    (SessionApi.removeTrack (some ex8Session) (some "ABCDEF") (some "a")
        (some "g9") false 11).session =
      some (if false || ex8Item.addedById == some "g9"
          || ex8Session.settings.allowGuestRemove then
        { ex8Session with queue := removeFirst (fun t => t.id == "a") ex8Session.queue
                          lastActivity := 11 }
      else ex8Session) ∧
    ((SessionApi.removeTrack (some ex8Session) (some "ABCDEF") (some "a")
        (some "g9") false 11).status = 200
      ∨ (SessionApi.removeTrack (some ex8Session) (some "ABCDEF") (some "a")
        (some "g9") false 11).status = 403) ∧
    ex8Session.queue.Perm (ex8Item :: removeFirst (fun t => t.id == "a") ex8Session.queue) ∧
    (removeFirst (fun t => t.id == "a") ex8Session.queue).Sublist ex8Session.queue :=
  C8_removeTrack ex8Session "ABCDEF" "a" (some "g9") false 11 ex8Item
    (by decide) (by decide) (by decide)

/-- Claim C7: immediately after a successful `vote` call the queue is
sorted by descending `votes`, and each class of tracks with equal vote
counts appears in the order it had in the pre-sort queue — which has
exactly the element order of the queue before the call (only the voted
entry is replaced in place, as the id-map equality states). -/
theorem C7_vote_sorted_stable (s : Session) (code tid : String)
    (vid vt : Option String) (now : Int) (v : Int) (tstar : QueueItem)
    (hcode : code.isEmpty = false) (htid : tid.isEmpty = false)
    (hvoting : s.settings.allowVoting = true)
    (hfind : s.queue.find? (fun t => t.id == tid) = some tstar) :
    List.Sorted voteRel
      (((SessionApi.vote (some s) (some code) (some tid) vid vt now).session.getD s).queue) ∧
    (((SessionApi.vote (some s) (some code) (some tid) vid vt now).session.getD s).queue).filter
        (fun t => t.votes == v)
      = (modifyFirst (fun t => t.id == tid) (voteToggle (orDefault vid "anonymous")) s.queue).filter
          (fun t => t.votes == v) ∧
    (modifyFirst (fun t => t.id == tid) (voteToggle (orDefault vid "anonymous")) s.queue).map
        (fun t => t.id) = s.queue.map (fun t => t.id) := by
  rw [vote_success s code tid vid vt now tstar hcode htid hvoting hfind]
  simp only [Option.getD_some]
  set q1 := modifyFirst (fun t => t.id == tid) (voteToggle (orDefault vid "anonymous"))
    s.queue with hq1
  refine ⟨List.sorted_insertionSort _ _, ?_, map_modifyFirst _ _ _ _ (voteToggle_id _)⟩
  set p : QueueItem → Bool := fun t => t.votes == v with hp
  have hc : ∀ x ∈ q1.filter p, ∀ y ∈ q1.filter p, voteRel x y := by
    intro x hx y hy
    have hxv : x.votes = v := by
      have := (List.mem_filter.mp hx).2
      simpa [hp] using this
    have hyv : y.votes = v := by
      have := (List.mem_filter.mp hy).2
      simpa [hp] using this
    show y.votes ≤ x.votes
    rw [hxv, hyv]
  have hpw : (q1.filter p).Pairwise voteRel := List.pairwise_of_forall_mem_list hc
  have hsub : (q1.filter p).Sublist (stableSortVotes q1) :=
    List.sublist_insertionSort hpw (List.filter_sublist q1)
  have hff : (q1.filter p).filter p = q1.filter p :=
    List.filter_eq_self.mpr (fun a ha => (List.mem_filter.mp ha).2)
  have hsub2 : (q1.filter p).Sublist ((stableSortVotes q1).filter p) := by
    have h0 := List.Sublist.filter p hsub
    rwa [hff] at h0
  have hlen : ((stableSortVotes q1).filter p).length = (q1.filter p).length :=
    ((List.perm_insertionSort voteRel q1).filter p).length_eq
  exact (List.Sublist.eq_of_length hsub2 hlen.symm).symm

/-- Witness for `C7_vote_sorted_stable` at concrete inputs (voter `gv`
upvotes track `c`, creating a tie at 2 votes with track `a`). -/
theorem C7_vote_sorted_stable_witness :
    List.Sorted voteRel
      (((SessionApi.vote (some ex7Session) (some "ABCDEF") (some "c") (some "gv")
        none 13).session.getD ex7Session).queue) ∧
    (((SessionApi.vote (some ex7Session) (some "ABCDEF") (some "c") (some "gv")
        none 13).session.getD ex7Session).queue).filter (fun t => t.votes == (2 : Int))
      = (modifyFirst (fun t => t.id == "c") (voteToggle (orDefault (some "gv") "anonymous"))
          ex7Session.queue).filter (fun t => t.votes == (2 : Int)) ∧
    (modifyFirst (fun t => t.id == "c") (voteToggle (orDefault (some "gv") "anonymous"))
        ex7Session.queue).map (fun t => t.id) = ex7Session.queue.map (fun t => t.id) :=
  C7_vote_sorted_stable ex7Session "ABCDEF" "c" (some "gv") none 13 2
    (sampleItem "c" 1 ["host"]) (by decide) (by decide) (by decide) (by decide)

/-- Claim C6 (amended): voting is an idempotent toggle — for a queued track
and a voter not currently in its `votedBy`, two consecutive `vote` calls by
that voter return the track to exactly its pre-vote state (same `votes`
count, voter absent from `votedBy`); and no sequence of `vote` calls ever
makes any queued `votes` count negative. -/
theorem C6_vote_toggle (s : Session) (code tid : String) (vid vt : Option String)
    (now now2 : Int) (reqs : List VoteReq) (tstar : QueueItem)
    (hcode : code.isEmpty = false) (htid : tid.isEmpty = false)
    (hvoting : s.settings.allowVoting = true)
    (hnodup : (s.queue.map (fun t => t.id)).Nodup)
    (hfind : s.queue.find? (fun t => t.id == tid) = some tstar)
    (hvoter : tstar.votedBy.contains (orDefault vid "anonymous") = false)
    (hnonneg : s.queue.all (fun t => decide (0 ≤ t.votes)) = true) :
    (((SessionApi.vote
        (some ((SessionApi.vote (some s) (some code) (some tid) vid vt now).session.getD s))
        (some code) (some tid) vid vt now2).session.getD s).queue.find?
          (fun t => t.id == tid)) = some tstar ∧
    (applyVotes reqs s).queue.all (fun t => decide (0 ≤ t.votes)) = true := by
  refine ⟨?_, applyVotes_nonneg reqs s hnonneg⟩
  set voter := orDefault vid "anonymous" with hv
  have h0 : 0 ≤ tstar.votes := by
    have h00 := List.all_eq_true.mp hnonneg tstar (List.mem_of_find?_eq_some hfind)
    simpa using h00
  have hnm : voter ∉ tstar.votedBy := by simpa using hvoter
  have ht1 : voteToggle voter tstar
      = { tstar with votes := tstar.votes + 1, votedBy := tstar.votedBy ++ [voter] } := by
    simp [voteToggle, hnm]
  have hfl : (tstar.votedBy ++ [voter]).filter (fun w => w != voter) = tstar.votedBy := by
    rw [List.filter_append]
    have hfa : tstar.votedBy.filter (fun w => w != voter) = tstar.votedBy :=
      List.filter_eq_self.mpr (fun w hw => by
        simp only [bne_iff_ne, ne_eq]
        intro hww
        exact hnm (hww ▸ hw))
    simp [hfa]
  have hmx : max 0 (tstar.votes + 1 - 1) = tstar.votes := by omega
  have hin : voter ∈ tstar.votedBy ++ [voter] := by simp
  have ht2 : voteToggle voter
      { tstar with votes := tstar.votes + 1, votedBy := tstar.votedBy ++ [voter] }
      = tstar := by
    simp [voteToggle, hin, hfl, hmx, max_eq_right h0]
  have h1 := vote_success s code tid vid vt now tstar hcode htid hvoting hfind
  have hstep1 := voteStep_queue s.queue tid voter tstar hnodup hfind
  have hs1 : (SessionApi.vote (some s) (some code) (some tid) vid vt now).session.getD s
      = { s with
          queue := stableSortVotes (modifyFirst (fun t => t.id == tid)
            (voteToggle voter) s.queue)
          lastActivity := now } := by
    rw [h1]
    rfl
  rw [hs1]
  have h2 := vote_success
    { s with
      queue := stableSortVotes (modifyFirst (fun t => t.id == tid)
        (voteToggle voter) s.queue)
      lastActivity := now }
    code tid vid vt now2 (voteToggle voter tstar) hcode htid hvoting hstep1.1
  rw [h2]
  have hstep2 := voteStep_queue
    (stableSortVotes (modifyFirst (fun t => t.id == tid) (voteToggle voter) s.queue))
    tid voter (voteToggle voter tstar) hstep1.2 hstep1.1
  simp only [Option.getD_some]
  rw [hstep2.1, ht1, ht2]

/-- Witness for `C6_vote_toggle` at concrete inputs (voter `gv` votes twice
on track `a`; a further vote request on track `b` keeps counts
nonnegative). -/
theorem C6_vote_toggle_witness :
    (((SessionApi.vote
        (some ((SessionApi.vote (some ex6Session) (some "ABCDEF") (some "a")
          (some "gv") none 21).session.getD ex6Session))
        (some "ABCDEF") (some "a") (some "gv") none 22).session.getD ex6Session).queue.find?
          (fun t => t.id == "a")) = some (sampleItem "a" 1 ["host"]) ∧
    (applyVotes [⟨some "ABCDEF", some "b", some "gv", none, 23⟩] ex6Session).queue.all
      (fun t => decide (0 ≤ t.votes)) = true :=
  C6_vote_toggle ex6Session "ABCDEF" "a" (some "gv") none 21 22
    [⟨some "ABCDEF", some "b", some "gv", none, 23⟩] (sampleItem "a" 1 ["host"])
    (by decide) (by decide) (by decide) (by decide) (by decide) (by decide) (by decide)

/-- Claim C6, counterexample: for a voter already present in the track's
`votedBy` (here `host`, auto-voted by `addTrack`), two consecutive `vote`
calls return the votes to the pre-vote count but leave the voter in
`votedBy` (first call retracts, second re-adds), so the claim's "removes
the voter from `votedBy`" fails for that voter identifier. -/
theorem C6_counterexample :
    (((SessionApi.vote
        (some ((SessionApi.vote (some ex6Session) (some "ABCDEF") (some "a")
          (some "host") none 31).session.getD ex6Session))
        (some "ABCDEF") (some "a") (some "host") none 32).session.getD ex6Session).queue.find?
          (fun t => t.id == "a")) = some (sampleItem "a" 1 ["host"]) ∧
    (sampleItem "a" 1 ["host"]).votedBy.contains "host" = true := by decide
